import Mathlib

/- Verification of the browser client of Smart-Data-App against its
   specification.  The JavaScript sources are shallowly embedded: each
   definition below names the source function it models and the lines it
   covers.  Network nondeterminism is abstracted into outcome enumerations;
   IEEE doubles are modelled by exact rationals at the call sites where the
   computed values are exactly representable or where the rounding result
   agrees (noted locally). -/

/-- JS truthiness of an optional string: absent (undefined or null) and the
empty string are falsy, every other string is truthy. -/
def strTruthy : Option String → Bool
  | none => false
  | some s => !s.isEmpty

/-- Char for a decimal digit value below ten (code point 48 + n). -/
def digitChar (n : ℕ) : Char := Char.ofNat (48 + n)

/-- Little endian decimal digits of a natural number, with explicit fuel
bounding the recursion depth; callers pass fuel larger than the number. -/
def natDigitsRevAux : ℕ → ℕ → List Char
  | 0, _ => []
  | fuel + 1, n =>
    if n < 10 then [digitChar n]
    else digitChar (n % 10) :: natDigitsRevAux fuel (n / 10)

/-- Decimal digit characters of a natural number, most significant first:
the digit string JS produces for an integral number. -/
def natChars (n : ℕ) : List Char := (natDigitsRevAux (n + 1) n).reverse

/-- The two decimal digits printed after the point by toFixed(2): tens digit
then units digit of the fractional part scaled to hundredths. -/
def pad2 (m : ℕ) : List Char := [digitChar (m / 10 % 10), digitChar (m % 10)]

/-- ECMAScript Number.prototype.toFixed rounding to 2 digits: the integer n
such that n / 100 is closest to x, ties resolved toward the larger n; this is
the floor of 100 x + 1/2. -/
def jsRound2 (x : ℚ) : ℤ := ⌊100 * x + 1 / 2⌋

/-- The string produced by x.toFixed(2) for nonnegative x (every call site in
the client passes a nonnegative count or percentage): integer part, a point,
and exactly two fraction digits. -/
def toFixed2 (x : ℚ) : String :=
  let n := (jsRound2 x).toNat
  String.mk (natChars (n / 100) ++ '.' :: pad2 (n % 100))

/-- Value of a big endian decimal digit string. -/
def digitsToNat (ds : List Char) : ℕ :=
  ds.foldl (fun a c => 10 * a + (c.toNat - 48)) 0

/-- Longest leading run of decimal digit characters, and the rest. -/
def takeDigits : List Char → List Char × List Char
  | [] => ([], [])
  | c :: cs =>
    if c.isDigit then
      let p := takeDigits cs
      (c :: p.1, p.2)
    else ([], c :: cs)

/-- JS parseFloat restricted to the unsigned decimal literals the client
builds: it reads the longest numeric prefix (digits, optionally a point and
more digits), ignores every trailing character, and is none (NaN) when no
digits can be read at all. -/
def parseFloat (s : String) : Option ℚ :=
  let p := takeDigits s.toList
  match p.1, p.2 with
  | [], '.' :: rest =>
    let f := takeDigits rest
    if f.1 = [] then none
    else some ((digitsToNat f.1 : ℚ) / 10 ^ f.1.length)
  | [], _ => none
  | ip, '.' :: rest =>
    let f := takeDigits rest
    some ((digitsToNat ip : ℚ) + (digitsToNat f.1 : ℚ) / 10 ^ f.1.length)
  | ip, _ => some ((digitsToNat ip : ℚ))

/-- The analysis operations named by the client when posting to the analyze
endpoint. -/
inductive Operation
  | basic_stats
  | outliers
  | correlations
  | histogram
  | scatter_plot
  | data_quality
  | insights
  | filter
deriving DecidableEq

/-- What an analysis trigger does before or at the network boundary: either
it alerts that no data is loaded (and performs no fetch), or it issues the
fetch for the requested operation. -/
inductive AnalysisStart
  | alertUploadFirst
  | fetchAnalyze (op : Operation)
deriving DecidableEq

/-- Abstract completion of an upload or analyze fetch.  networkError: the
promise rejects with no response (connection failure).  aborted: the timeout
fired and the AbortController cancelled the request.  httpNotOk: a response
arrived with a non 2xx status.  jsonDecodeError: a response arrived but its
body is not valid JSON.  body: a response arrived and parsed to b. -/
inductive UploadNet (β : Type)
  | networkError
  | aborted
  | httpNotOk
  | jsonDecodeError
  | body (b : β)
deriving DecidableEq

/-- Whether a response object reached the first then-handler of the fetch
chain: true exactly when the server produced a response at all. -/
def responseArrived {β : Type} : UploadNet β → Bool
  | .networkError => false
  | .aborted => false
  | .httpNotOk => true
  | .jsonDecodeError => true
  | .body _ => true

/-- Bookkeeping for one setTimeout handle: whether it has fired and whether
clearTimeout has been called on it. -/
structure TimerState where
  fired : Bool
  cleared : Bool
deriving DecidableEq

/-- Effect of clearTimeout. -/
def TimerState.clear (t : TimerState) : TimerState := { t with cleared := true }

/-- A timer is pending when it has neither fired nor been cleared: it will
still run its callback later. -/
def TimerState.pending (t : TimerState) : Bool := !t.fired && !t.cleared

/-- The timer state at the instant the fetch settles: the 10 second timer has
fired exactly on the aborted outcome (firing is what aborts the request). -/
def timerAtSettle {β : Type} : UploadNet β → TimerState
  | .aborted => ⟨true, false⟩
  | _ => ⟨false, false⟩

/-- Runtime state of one chart slot: the creation order ids of instances
created for the slot and not yet destroyed, the id currently stored in the
registry variable for the slot, and the next fresh id. -/
structure SlotState where
  live : List ℕ
  handle : Option ℕ
  nextId : ℕ
deriving DecidableEq

/-- Effect of the destroy guard pattern: when the slot variable holds an
instance, its destroy method is called, removing it from the live set; the
variable keeps referencing the destroyed instance. -/
def SlotState.destroyHandle (s : SlotState) : SlotState :=
  match s.handle with
  | some h => { s with live := s.live.erase h }
  | none => s

/-- Effect of constructing a new Chart and storing it in the slot variable. -/
def SlotState.create (s : SlotState) : SlotState :=
  { live := s.live ++ [s.nextId], handle := some s.nextId, nextId := s.nextId + 1 }

/-- The empty slot before any chart has been drawn. -/
def slotInit : SlotState := ⟨[], none, 0⟩

/-- Shape of one column entry of an outlier report as consumed by the
outlier renderers. -/
structure OutlierColumnData where
  count : ℕ
  percentage : ℚ
  outlier_values : List String

/-- One data row of a scatter payload: column name to value, where a missing
pair models an absent (undefined) field and a pair with none models an
explicit null. -/
def Row : Type := List (String × Option ℚ)

/-- Lookup of row[col]: none when the field is absent. -/
def rowField (r : Row) (c : String) : Option (Option ℚ) :=
  match r.find? (fun p => p.1 == c) with
  | some p => some p.2
  | none => none

/-- JS coercion row[col] or 0: absent, null and zero all become 0. -/
def jsNumOr0 (r : Row) (c : String) : ℚ :=
  match rowField r c with
  | some (some q) => q
  | some none => 0
  | none => 0

/-- Generic envelope of an analyze response body: a success flag (absent is
falsy), an optional result payload and an optional error message. -/
structure AnalyzeBody (ρ : Type) where
  success : Bool
  result : Option ρ
  error : Option String

namespace Part000

/-- Upload response body expected by part_000: an optional error message and
an optional analysis payload (the analysis shape itself is left abstract). -/
structure UploadBody (α : Type) where
  error : Option String
  analysis : Option α
deriving DecidableEq

/-- What the part_000 body handler does with a parsed upload body
(src/unnamed/part_000 lines 85 to 103): an error field throws and is alerted;
a missing analysis field throws and is alerted; otherwise currentData is set
and rendering proceeds. -/
inductive UploadHandled (α : Type)
  | alertError (msg : String)
  | alertNoAnalysis
  | proceed (a : α)
deriving DecidableEq

/-- Embeds the body branch of processFiles (src/unnamed/part_000 lines
85 to 103): data.error is checked first, then data.analysis. -/
def handleUploadBody {α : Type} (b : UploadBody α) : UploadHandled α :=
  match b.error with
  | some msg => UploadHandled.alertError msg
  | none =>
    match b.analysis with
    | none => UploadHandled.alertNoAnalysis
    | some a => UploadHandled.proceed a

/-- Embeds the guard of performAnalysis (src/unnamed/part_000 lines 115 to
127): the alert fires only when currentData is null AND the operation is not
basic_stats; otherwise the fetch to the analyze endpoint is issued. -/
def performAnalysis {α : Type} (currentData : Option α) (op : Operation) :
    AnalysisStart :=
  if currentData.isNone ∧ op ≠ Operation.basic_stats then
    AnalysisStart.alertUploadFirst
  else AnalysisStart.fetchAnalyze op

/-- Timer bookkeeping of processFiles (src/unnamed/part_000 lines 71 to 112):
clearTimeout is called at line 80 in the first then-handler, reached whenever
a response arrives, and again at line 110 in the finally-handler, which runs
on every completion path. -/
def processFilesTimer {β : Type} (o : UploadNet β) : TimerState :=
  let t0 := timerAtSettle o
  let t1 := if responseArrived o then t0.clear else t0
  t1.clear

/-- State effect of processFiles on currentData (src/unnamed/part_000 lines
85 to 112): the only assignment is line 95, reached after the ok check, the
error check and the analysis check; every failing path throws or rejects
before reaching it. -/
def processFilesState {α : Type} (st : Option α) (o : UploadNet (UploadBody α)) :
    Option α :=
  match o with
  | .networkError => st
  | .aborted => st
  | .httpNotOk => st
  | .jsonDecodeError => st
  | .body b =>
    match handleUploadBody b with
    | .alertError _ => st
    | .alertNoAnalysis => st
    | .proceed a => some a

/-- Scatter payload as consumed by createScatterPlot: optional error field,
optional (absent or null) row list, optional axis column names. -/
structure ScatterData where
  error : Option String
  data : Option (List Row)
  x_column : Option String
  y_column : Option String

/-- What createScatterPlot does after the canvas and destroy steps. -/
inductive ScatterRender
  | canvasMissing
  | notEnoughAlert
  | chart (points : List (ℚ × ℚ))
deriving DecidableEq

/-- Embeds createScatterPlot (src/unnamed/part_000 lines 167 to 215; identical
guard in script (11).js lines 473 to 519): after the canvas check and the
destroy guard, the payload is rejected when it is absent, carries an error
field, has an absent data field, or has a falsy x_column or y_column; note
that an empty data array is truthy in JS and passes the guard, after which
the chart is built with row values coerced by the or-0 pattern. -/
def createScatterPlot (ctx : Bool) (sd : Option ScatterData) : ScatterRender :=
  if !ctx then ScatterRender.canvasMissing
  else
    match sd with
    | none => ScatterRender.notEnoughAlert
    | some d =>
      if d.error.isSome ∨ d.data.isNone ∨ ¬strTruthy d.x_column ∨ ¬strTruthy d.y_column then
        ScatterRender.notEnoughAlert
      else
        ScatterRender.chart
          ((d.data.getD []).map fun r =>
            (jsNumOr0 r (d.x_column.getD ""), jsNumOr0 r (d.y_column.getD "")))

/-- Render calls that target the chart3 slot in part_000, abstracted by the
payload condition that decides their branch. -/
inductive Chart3Render
  | sampleHistogram (hasData : Bool)
  | categoricalChart (hasData : Bool)
  | scatterPlot (validData : Bool)
  | histogramRerender
deriving DecidableEq

/-- Slot effect of the chart3 renderers.  createSampleHistogram
(src/unnamed/part_000 lines 522 to 558) destroys the registered instance
first and creates only when histogram data is present.  createCategoricalChart
(lines 488 to 520) contains no destroy call at all: when categorical data is
present it constructs a new chart and overwrites the slot variable.
createScatterPlot (lines 167 to 215) destroys first (given the canvas) and
creates only on a valid payload.  histogramRerender is the app.js
renderHistogramChart (app.js lines 600 to 639), which always destroys the
registered instance and then creates. -/
def chart3Step (s : SlotState) : Chart3Render → SlotState
  | .sampleHistogram hasData =>
    let s1 := s.destroyHandle
    if hasData then s1.create else s1
  | .categoricalChart hasData =>
    if hasData then s.create else s
  | .scatterPlot validData =>
    let s1 := s.destroyHandle
    if validData then s1.create else s1
  | .histogramRerender => s.destroyHandle.create

/-- A sequence of renders against the slot. -/
def chart3Run (evs : List Chart3Render) (s : SlotState) : SlotState :=
  evs.foldl chart3Step s

/-- The renders that contain the destroy-before-create guard. -/
def guarded : Chart3Render → Bool
  | .categoricalChart _ => false
  | .sampleHistogram _ => true
  | .scatterPlot _ => true
  | .histogramRerender => true

/-- Embeds the per column item of displayOutliers (src/unnamed/part_000 lines
369 to 377): count and two-decimal percentage, no sample values. -/
def outlierItem (col : String) (d : OutlierColumnData) : String × String :=
  ("Outliers in " ++ col,
   "Found " ++ toString d.count ++ " outliers (" ++ toFixed2 d.percentage ++ "%)")

end Part000

namespace Script11

/-- Embeds the guard of performAnalysis (src/frontend/script (11).js lines
127 to 139): any operation with currentData null alerts and returns before
the fetch. -/
def performAnalysis {α : Type} (currentData : Option α) (op : Operation) :
    AnalysisStart :=
  if currentData.isNone then AnalysisStart.alertUploadFirst
  else AnalysisStart.fetchAnalyze op

/-- What applyFilter does at the network boundary. -/
inductive FilterStart
  | alertMissingParams
  | fetchFilter (column minValue maxValue : Option String)
deriving DecidableEq

/-- Embeds the guard of applyFilter (src/frontend/script (11).js lines 176 to
192): only the filter parameters are checked; dataset presence (currentData)
is never consulted, as the signature shows. -/
def applyFilterStart (column minValue maxValue : Option String) : FilterStart :=
  if ¬strTruthy column ∨ (¬strTruthy minValue ∧ ¬strTruthy maxValue) then
    FilterStart.alertMissingParams
  else FilterStart.fetchFilter column minValue maxValue

/-- Timer bookkeeping of processFiles (src/frontend/script (11).js lines 84
to 124): clearTimeout appears only at line 98 in the first then-handler; the
finally-handler at lines 121 to 124 only hides the loading modal. -/
def processFilesTimer {β : Type} (o : UploadNet β) : TimerState :=
  let t0 := timerAtSettle o
  if responseArrived o then t0.clear else t0

/-- Upload response body expected by script (11).js. -/
structure UploadBody (α : Type) where
  error : Option String
  analysis : Option α
deriving DecidableEq

/-- State effect of processFiles (src/frontend/script (11).js lines 103 to
124): after the error check, currentData is assigned data.analysis at line
109; all four network failure paths skip to the catch-handler without any
assignment. -/
def processFilesState {α : Type} (st : Option α) (o : UploadNet (UploadBody α)) :
    Option α :=
  match o with
  | .networkError => st
  | .aborted => st
  | .httpNotOk => st
  | .jsonDecodeError => st
  | .body b =>
    match b.error with
    | some _ => st
    | none => b.analysis

/-- State effect of applyFilter (src/frontend/script (11).js lines 193 to
219): currentData is assigned data.result at line 204, only after the ok and
error checks; failure paths reach the catch-handler with no assignment.
The filter request carries no timeout, so the aborted outcome cannot occur
for it; it is included for uniformity and also leaves the state unchanged. -/
def applyFilterState {α : Type} (st : Option α) (o : UploadNet (AnalyzeBody α)) :
    Option α :=
  match o with
  | .networkError => st
  | .aborted => st
  | .httpNotOk => st
  | .jsonDecodeError => st
  | .body b =>
    match b.error with
    | some _ => st
    | none => b.result

/-- What the performAnalysis body handler does (src/frontend/script (11).js
lines 146 to 164): an error field is routed to displayNoResults with the
message; otherwise the result is dispatched to the renderer of the
operation. -/
inductive AnalyzeOutcome (ρ : Type)
  | noResults (msg : String)
  | render (op : Operation) (r : Option ρ)
deriving DecidableEq

/-- Embeds the body dispatch of performAnalysis (src/frontend/script (11).js
lines 146 to 164). -/
def analyzeDispatch {ρ : Type} (op : Operation) (b : AnalyzeBody ρ) :
    AnalyzeOutcome ρ :=
  match b.error with
  | some msg => AnalyzeOutcome.noResults msg
  | none => AnalyzeOutcome.render op b.result

/-- Embeds the per column item of displayOutliers (src/frontend/script
(11).js lines 344 to 352): the description joins ALL outlier values; there is
no slice bound. -/
def outlierItem (col : String) (d : OutlierColumnData) : String × String :=
  ("Outliers in " ++ col,
   "Found " ++ toString d.count ++ " outliers (" ++ toFixed2 d.percentage
     ++ "%): " ++ String.intercalate ", " d.outlier_values)

end Script11

namespace AppJs

/-- What an analysis loader in app.js does at the network boundary: the bare
return when no file id is loaded (nothing is surfaced), or the fetch with the
payload it builds. -/
inductive LoadStart
  | silentReturn
  | fetchAnalyze (op : Operation) (file_id : String) (columns : Option (List String))
deriving DecidableEq

/-- Embeds the shared shape of the app.js loaders loadBasicStats,
loadOutliers, loadCorrelations, loadHistogram, loadScatterPlot,
loadDataQuality and loadInsights (app.js lines 276 to 295 and the five
textually identical variants): the guard is a bare return when currentFileId
is falsy; the payload carries the operation, the file id, and the selected
columns only when the list is nonempty. -/
def loadAnalysis (currentFileId : Option String) (op : Operation)
    (columns : Option (List String)) : LoadStart :=
  if ¬strTruthy currentFileId then LoadStart.silentReturn
  else
    LoadStart.fetchAnalyze op (currentFileId.getD "")
      (match columns with
       | some cs => if 0 < cs.length then some cs else none
       | none => none)

/-- Upload response body expected by app.js: a success flag (absent is
falsy), the stored filename, the available columns and an optional error
message. -/
structure UploadBody where
  success : Bool
  filename : String
  available_columns : Option (List String)
  error : Option String
deriving DecidableEq

/-- The user visible result of the app.js upload handler. -/
inductive UploadUI
  | analysisComplete (fileId : String) (columns : List String)
  | uploadFailedGeneric
  | uploadErrorGeneric
  | connectionError
deriving DecidableEq

/-- Embeds the onload branch of uploadFile (app.js lines 155 to 185): on
status 200 with data.success the state is seeded and the default render
sequence starts; on status 200 without data.success the button shows the
generic Upload failed text and data.error is never read; on any other status
the button shows the generic Upload error text. -/
def uploadOnload (status : ℕ) (b : UploadBody) : UploadUI :=
  if status = 200 then
    if b.success then UploadUI.analysisComplete b.filename (b.available_columns.getD [])
    else UploadUI.uploadFailedGeneric
  else UploadUI.uploadErrorGeneric

/-- The session state globals of app.js (app.js lines 3 to 4). -/
structure Session where
  currentFileId : Option String
  availableColumns : List String
deriving DecidableEq

/-- Completion of the XMLHttpRequest upload: connection failure (onerror), a
response whose text is not valid JSON, or a response with a parsed body. -/
inductive XhrOutcome
  | connectionError
  | loadedUnparsable (status : ℕ)
  | loaded (status : ℕ) (b : UploadBody)
deriving DecidableEq

/-- State effect of uploadFile (app.js lines 155 to 193): currentFileId and
availableColumns are assigned (lines 163 to 164) only in the status 200,
data.success branch; the onerror path and the failure branches perform no
assignment, and a JSON parse failure throws before any assignment. -/
def uploadFileSession (st : Session) : XhrOutcome → Session
  | .connectionError => st
  | .loadedUnparsable _ => st
  | .loaded status b =>
    if status = 200 then
      if b.success then
        { currentFileId := some b.filename,
          availableColumns := b.available_columns.getD [] }
      else st
    else st

/-- What an analysis loader shows once a body has been parsed. -/
inductive AnalyzeUI (ρ : Type)
  | render (r : ρ)
  | errorNotification (msg : String)
deriving DecidableEq

/-- Embeds the body dispatch of loadBasicStats (app.js lines 297 to 306): the
success render path requires data.success AND data.result; otherwise a
notification carries data.error or the fallback text. -/
def loadBasicStatsDispatch {ρ : Type} (b : AnalyzeBody ρ) : AnalyzeUI ρ :=
  match b.success, b.result with
  | true, some r => AnalyzeUI.render r
  | true, none => AnalyzeUI.errorNotification (b.error.getD "Failed to load statistics")
  | false, _ => AnalyzeUI.errorNotification (b.error.getD "Failed to load statistics")

/-- The pieces of the per column card built by displayOutliers (app.js lines
451 to 463). -/
structure OutlierCard where
  headingText : String
  headingClass : String
  statValue : String
  sampleValues : List String

/-- Embeds the per column card of displayOutliers (app.js lines 451 to 463):
the heading class is warning exactly when the percentage exceeds 5 and info
otherwise; the stat line is the count and the two-decimal percentage; the
sample is outlier_values.slice(0, 5). -/
def outlierCard (col : String) (d : OutlierColumnData) : OutlierCard :=
  { headingText := col
  , headingClass := if d.percentage > 5 then "warning" else "info"
  , statValue := toString d.count ++ " outliers (" ++ toFixed2 d.percentage ++ "%)"
  , sampleValues := d.outlier_values.take 5 }

/-- Embeds the missing value percentage computed by displayDataQuality
(app.js lines 823 to 825): missingValues is the reduce sum of the per column
missing counts, totalCells is the key count of the missing_values map times
shape[0], and the percentage is their quotient times 100. -/
def missingPercentage (missing_values : List (String × ℕ)) (rowCount : ℕ) : ℚ :=
  let missingValues : ℚ := (missing_values.map fun p => (p.2 : ℚ)).foldl (fun a b => a + b) 0
  let totalCells : ℚ := (missing_values.length : ℚ) * (rowCount : ℚ)
  missingValues / totalCells * 100

/-- The formula stated by the specification for the data quality renderer:
totalMissing divided by columnCount times rowCount, times 100, where
totalMissing is the sum of the per column missing counts and columnCount the
number of columns in the missing-values map. -/
def missingPercentageSpec (missing_values : List (String × ℕ)) (rowCount : ℕ) : ℚ :=
  (((missing_values.map fun p => p.2).sum : ℕ) : ℚ)
    / ((missing_values.length : ℚ) * (rowCount : ℚ)) * 100

/-- Scatter payload as consumed by displayScatterPlot in app.js; the data
field is accessed unconditionally there, so it is a plain list here. -/
structure ScatterPayload where
  error : Option String
  data : List Row
  x_column : Option String
  y_column : Option String

/-- What displayScatterPlot shows. -/
inductive ScatterDisplay
  | errorPlaceholder (msg : String)
  | notEnoughPlaceholder
  | chart (xCol yCol : String)
deriving DecidableEq

/-- Embeds displayScatterPlot (app.js lines 674 to 733): an error field
yields its message as a placeholder; otherwise the numeric columns are those
available columns for which some row holds a number; fewer than two yields
the not-enough-data placeholder; otherwise the chart is rendered with the
payload axis columns, falling back to the first two numeric columns when an
axis name is falsy (the DOM select assignment is modelled as the assigned
value). -/
def displayScatterPlot (availableColumns : List String) (sd : ScatterPayload) :
    ScatterDisplay :=
  match sd.error with
  | some msg => ScatterDisplay.errorPlaceholder msg
  | none =>
    let numericColumns := availableColumns.filter fun col =>
      sd.data.any fun r =>
        match rowField r col with
        | some (some _) => true
        | _ => false
    if numericColumns.length < 2 then ScatterDisplay.notEnoughPlaceholder
    else
      ScatterDisplay.chart
        (if strTruthy sd.x_column then sd.x_column.getD "" else numericColumns.getD 0 "")
        (if strTruthy sd.y_column then sd.y_column.getD "" else numericColumns.getD 1 "")

/-- Render calls that target the histogram slot in app.js (the
currentHistogramChart variable). -/
inductive HistogramSlotRender
  | rerender
  | emptyData
deriving DecidableEq

/-- Slot effect of the app.js histogram renderers.  renderHistogramChart
(app.js lines 600 to 639) destroys the registered instance if any and then
creates.  The empty branch of displayHistogram (lines 573 to 579) destroys
the registered instance and shows a placeholder, leaving the variable
referencing the destroyed chart. -/
def histogramSlotStep (s : SlotState) : HistogramSlotRender → SlotState
  | .rerender => s.destroyHandle.create
  | .emptyData => s.destroyHandle

/-- A sequence of renders against the app.js histogram slot. -/
def histogramSlotRun (evs : List HistogramSlotRender) (s : SlotState) : SlotState :=
  evs.foldl histogramSlotStep s

/-- A JS value as returned by formatFileSize: a string, a number, or NaN. -/
inductive JSValue
  | str (s : String)
  | num (q : ℚ)
  | nan
deriving DecidableEq

/-- The unit labels of formatFileSize (app.js line 59). -/
def sizes : List String := ["Bytes", "KB", "MB", "GB"]

/-- Embeds formatFileSize (app.js lines 56 to 62).  Math.floor(Math.log
bytes / Math.log 1024) is the floor of the base 1024 logarithm, Nat.log 1024
bytes; the quotient bytes / 1024 ^ i is taken in exact rational arithmetic;
parseFloat is applied to the concatenation of the toFixed(2) string, a space
and the indexed unit label, exactly as the source writes it (an out of range
index concatenates the text undefined, as JS string conversion does). -/
def formatFileSize (bytes : ℕ) : JSValue :=
  if bytes = 0 then JSValue.str "0 Bytes"
  else
    let i := Nat.log 1024 bytes
    match parseFloat (toFixed2 ((bytes : ℚ) / 1024 ^ i) ++ " " ++ sizes.getD i "undefined") with
    | some q => JSValue.num q
    | none => JSValue.nan

end AppJs

/-- Invariant of a chart slot: at most one instance is live, and every live
instance is the one registered in the slot variable. -/
abbrev SlotInv (s : SlotState) : Prop :=
  s.live.length ≤ 1 ∧ ∀ i ∈ s.live, s.handle = some i

/- Helper lemmas about the chart slot model. -/

theorem destroyHandle_live (s : SlotState) (hs : SlotInv s) :
    s.destroyHandle.live = [] := by
  obtain ⟨h1, h2⟩ := hs
  cases hl : s.live with
  | nil =>
    unfold SlotState.destroyHandle
    cases s.handle <;> simp [hl]
  | cons i t =>
    have ht : t = [] := by
      rw [hl, List.length_cons] at h1
      have h0 : t.length = 0 := by omega
      exact List.length_eq_zero.mp h0
    have hh : s.handle = some i := h2 i (by rw [hl]; exact List.mem_cons_self i t)
    unfold SlotState.destroyHandle
    rw [hh]
    simp [hl, ht]

theorem slotInv_destroy (s : SlotState) (hs : SlotInv s) :
    SlotInv s.destroyHandle := by
  have hl := destroyHandle_live s hs
  constructor
  · simp [hl]
  · intro i hi
    rw [hl] at hi
    cases hi

theorem slotInv_destroy_create (s : SlotState) (hs : SlotInv s) :
    SlotInv s.destroyHandle.create := by
  have hl := destroyHandle_live s hs
  unfold SlotState.create
  constructor
  · simp [hl]
  · intro i hi
    simp [hl] at hi
    simp [hi]

theorem chart3Step_inv (s : SlotState) (e : Part000.Chart3Render)
    (he : Part000.guarded e = true) (hs : SlotInv s) :
    SlotInv (Part000.chart3Step s e) := by
  cases e with
  | sampleHistogram hasData =>
    cases hasData
    · simpa [Part000.chart3Step] using slotInv_destroy s hs
    · simpa [Part000.chart3Step] using slotInv_destroy_create s hs
  | categoricalChart hasData =>
    simp [Part000.guarded] at he
  | scatterPlot validData =>
    cases validData
    · simpa [Part000.chart3Step] using slotInv_destroy s hs
    · simpa [Part000.chart3Step] using slotInv_destroy_create s hs
  | histogramRerender =>
    simpa [Part000.chart3Step] using slotInv_destroy_create s hs

theorem chart3Run_inv (evs : List Part000.Chart3Render)
    (h : ∀ e ∈ evs, Part000.guarded e = true) (s : SlotState) (hs : SlotInv s) :
    SlotInv (Part000.chart3Run evs s) := by
  induction evs generalizing s with
  | nil => exact hs
  | cons e t ih =>
    have h1 : Part000.guarded e = true := h e (List.mem_cons_self e t)
    have h2 : ∀ x ∈ t, Part000.guarded x = true :=
      fun x hx => h x (List.mem_cons_of_mem e hx)
    simpa [Part000.chart3Run] using ih h2 (Part000.chart3Step s e) (chart3Step_inv s e h1 hs)

theorem histogramSlotStep_inv (s : SlotState) (e : AppJs.HistogramSlotRender)
    (hs : SlotInv s) : SlotInv (AppJs.histogramSlotStep s e) := by
  cases e with
  | rerender => exact slotInv_destroy_create s hs
  | emptyData => exact slotInv_destroy s hs

theorem histogramSlotRun_inv (evs : List AppJs.HistogramSlotRender)
    (s : SlotState) (hs : SlotInv s) : SlotInv (AppJs.histogramSlotRun evs s) := by
  induction evs generalizing s with
  | nil => exact hs
  | cons e t ih =>
    simpa [AppJs.histogramSlotRun] using
      ih (AppJs.histogramSlotStep s e) (histogramSlotStep_inv s e hs)

/- Helper lemmas about decimal digit strings and parseFloat. -/

theorem digitChar_isDigit (n : ℕ) (h : n < 10) : (digitChar n).isDigit = true := by
  interval_cases n <;> decide

theorem digitChar_toNat (n : ℕ) (h : n < 10) : (digitChar n).toNat = 48 + n := by
  interval_cases n <;> decide

theorem natDigitsRevAux_digits (fuel n : ℕ) :
    ∀ c ∈ natDigitsRevAux fuel n, c.isDigit = true := by
  induction fuel generalizing n with
  | zero =>
    intro c hc
    simp [natDigitsRevAux] at hc
  | succ f ih =>
    intro c hc
    by_cases h : n < 10
    · simp [natDigitsRevAux, h] at hc
      subst hc
      exact digitChar_isDigit n h
    · simp [natDigitsRevAux, h] at hc
      rcases hc with hc | hc
      · subst hc
        exact digitChar_isDigit _ (Nat.mod_lt n (by omega))
      · exact ih (n / 10) c hc

theorem natChars_digits (n : ℕ) : ∀ c ∈ natChars n, c.isDigit = true := by
  intro c hc
  rw [natChars, List.mem_reverse] at hc
  exact natDigitsRevAux_digits (n + 1) n c hc

theorem natChars_ne_nil (n : ℕ) : natChars n ≠ [] := by
  unfold natChars
  by_cases h : n < 10 <;> simp [natDigitsRevAux, h]

theorem digitsToNat_append_one (xs : List Char) (c : Char) :
    digitsToNat (xs ++ [c]) = 10 * digitsToNat xs + (c.toNat - 48) := by
  simp [digitsToNat, List.foldl_append]

theorem digitsToNat_natDigitsRevAux (fuel : ℕ) :
    ∀ n ≤ fuel, digitsToNat (natDigitsRevAux (fuel + 1) n).reverse = n := by
  induction fuel with
  | zero =>
    intro n hn
    have h0 : n = 0 := Nat.le_zero.mp hn
    subst h0
    decide
  | succ f ih =>
    intro n hn
    by_cases h10 : n < 10
    · simp [natDigitsRevAux, h10, digitsToNat, digitChar_toNat n h10]
    · have hrec : natDigitsRevAux (f + 1 + 1) n
          = digitChar (n % 10) :: natDigitsRevAux (f + 1) (n / 10) := by
        simp [natDigitsRevAux, h10]
      have hdiv : n / 10 ≤ f := by
        have hlt : n / 10 < n := Nat.div_lt_self (by omega) (by omega)
        omega
      rw [hrec, List.reverse_cons, digitsToNat_append_one, ih (n / 10) hdiv,
          digitChar_toNat _ (Nat.mod_lt n (by omega))]
      omega

theorem digitsToNat_natChars (n : ℕ) : digitsToNat (natChars n) = n :=
  digitsToNat_natDigitsRevAux n n (le_refl n)

theorem pad2_digits (m : ℕ) : ∀ c ∈ pad2 m, c.isDigit = true := by
  intro c hc
  simp [pad2] at hc
  rcases hc with hc | hc <;> subst hc
  · exact digitChar_isDigit _ (Nat.mod_lt _ (by omega))
  · exact digitChar_isDigit _ (Nat.mod_lt _ (by omega))

theorem digitsToNat_pad2 (m : ℕ) (h : m < 100) : digitsToNat (pad2 m) = m := by
  have h1 : m / 10 % 10 < 10 := Nat.mod_lt _ (by omega)
  have h2 : m % 10 < 10 := Nat.mod_lt _ (by omega)
  simp [pad2, digitsToNat, digitChar_toNat _ h1, digitChar_toNat _ h2]
  omega

theorem takeDigits_append (ds : List Char) (hds : ∀ c ∈ ds, c.isDigit = true)
    (c0 : Char) (hc0 : c0.isDigit = false) (rest : List Char) :
    takeDigits (ds ++ c0 :: rest) = (ds, c0 :: rest) := by
  induction ds with
  | nil => simp [takeDigits, hc0]
  | cons d t ih =>
    have hd : d.isDigit = true := hds d (List.mem_cons_self d t)
    have ht : ∀ c ∈ t, c.isDigit = true := fun c hc => hds c (List.mem_cons_of_mem d hc)
    simp [takeDigits, hd, ih ht]

theorem takeDigits_all (ds : List Char) (hds : ∀ c ∈ ds, c.isDigit = true) :
    takeDigits ds = (ds, []) := by
  induction ds with
  | nil => rfl
  | cons d t ih =>
    have hd : d.isDigit = true := hds d (List.mem_cons_self d t)
    have ht : ∀ c ∈ t, c.isDigit = true := fun c hc => hds c (List.mem_cons_of_mem d hc)
    simp [takeDigits, hd, ih ht]

theorem parseFloat_shape (d : Char) (t fp rest : List Char)
    (h1 : takeDigits ((d :: t) ++ '.' :: (fp ++ rest)) = (d :: t, '.' :: (fp ++ rest)))
    (h2 : takeDigits (fp ++ rest) = (fp, rest)) :
    parseFloat (String.mk ((d :: t) ++ '.' :: (fp ++ rest)))
      = some ((digitsToNat (d :: t) : ℚ) + (digitsToNat fp : ℚ) / 10 ^ fp.length) := by
  unfold parseFloat
  simp only [String.toList]
  rw [h1]
  show some ((digitsToNat (d :: t) : ℚ)
      + (digitsToNat (takeDigits (fp ++ rest)).1 : ℚ) / 10 ^ (takeDigits (fp ++ rest)).1.length)
    = some ((digitsToNat (d :: t) : ℚ) + (digitsToNat fp : ℚ) / 10 ^ fp.length)
  rw [h2]

theorem foldl_add_ratCast (l : List (String × ℕ)) (a : ℚ) :
    (l.map fun p => ((p.2 : ℕ) : ℚ)).foldl (fun x y => x + y) a
      = a + (((l.map fun p => p.2).sum : ℕ) : ℚ) := by
  induction l generalizing a with
  | nil => simp
  | cons p t ih =>
    simp only [List.map_cons, List.foldl_cons, List.sum_cons, ih]
    push_cast
    ring

/-- Claim C1, counterexample: in part_000, performAnalysis with operation
basic_stats and no loaded dataset (currentData null) issues the network call
to the analyze endpoint; the guard at lines 116 to 120 exempts basic_stats,
so no NoDatasetLoaded condition is surfaced and a network call occurs,
contradicting the claim that every dataset-requiring operation fails fast
with zero network calls. -/
theorem C1_counterexample :
    Part000.performAnalysis (none : Option ℕ) Operation.basic_stats
      = AnalysisStart.fetchAnalyze Operation.basic_stats := by
  rfl

/-- Claim C1, amended: with no dataset loaded, the app.js loaders return
silently with zero network calls (nothing is surfaced); the script (11).js
performAnalysis alerts and performs zero network calls for every operation;
the part_000 performAnalysis alerts and performs zero network calls for
every operation except basic_stats, which proceeds to the network; the
script (11).js applyFilter checks only the filter parameters and never
consults the dataset, so with a column and a bound present it fetches
regardless of dataset presence. -/
theorem C1_amended :
    (∀ (op : Operation) (cols : Option (List String)),
        AppJs.loadAnalysis none op cols = AppJs.LoadStart.silentReturn)
    ∧ (∀ (α : Type) (op : Operation),
        Script11.performAnalysis (none : Option α) op = AnalysisStart.alertUploadFirst)
    ∧ (∀ (α : Type) (op : Operation), op ≠ Operation.basic_stats →
        Part000.performAnalysis (none : Option α) op = AnalysisStart.alertUploadFirst)
    ∧ (∀ (column minValue maxValue : Option String),
        strTruthy column = true → strTruthy minValue = true →
        Script11.applyFilterStart column minValue maxValue
          = Script11.FilterStart.fetchFilter column minValue maxValue) := by
  refine ⟨fun op cols => rfl, fun α op => rfl, fun α op h => ?_, fun c mn mx hc hmn => ?_⟩
  · simp [Part000.performAnalysis, h]
  · simp [Script11.applyFilterStart, hc, hmn]

/-- Witness for C1_amended at a concrete operation and concrete filter
parameters. -/
theorem C1_amended_witness :
    Part000.performAnalysis (none : Option ℕ) Operation.outliers
        = AnalysisStart.alertUploadFirst
    ∧ Script11.applyFilterStart (some "age") (some "1") none
        = Script11.FilterStart.fetchFilter (some "age") (some "1") none :=
  ⟨C1_amended.2.2.1 ℕ Operation.outliers (by decide),
   C1_amended.2.2.2 (some "age") (some "1") none (by decide) (by decide)⟩

/-- Claim C2, counterexample: rendering a histogram into the chart3 slot and
then rendering a categorical chart (part_000 createCategoricalChart, which
contains no destroy call) leaves two live chart instances for the slot, so
the destroy-strictly-before-create invariant fails and the live handles
overlap. -/
theorem C2_counterexample :
    (Part000.chart3Run
        [Part000.Chart3Render.sampleHistogram true, Part000.Chart3Render.categoricalChart true]
        slotInit).live.length = 2 := by
  rfl

/-- Claim C2, amended: every render of the slot that goes through the
destroy-before-create guard (createSampleHistogram, createScatterPlot,
renderHistogramChart, and the destroy-only empty branch of displayHistogram)
preserves the slot invariant: at most one live instance, and every live
instance is the registered one.  createCategoricalChart creates without
destroying and is excluded; a sequence containing it can leave two live
instances, as the counterexample shows. -/
theorem C2_amended :
    (∀ (evs : List Part000.Chart3Render), (∀ e ∈ evs, Part000.guarded e = true) →
        ∀ (s : SlotState), SlotInv s →
          SlotInv (Part000.chart3Run evs s) ∧ (Part000.chart3Run evs s).live.length ≤ 1)
    ∧ (∀ (evs : List AppJs.HistogramSlotRender) (s : SlotState), SlotInv s →
        SlotInv (AppJs.histogramSlotRun evs s)
          ∧ (AppJs.histogramSlotRun evs s).live.length ≤ 1) := by
  constructor
  · intro evs h s hs
    have hinv := chart3Run_inv evs h s hs
    exact ⟨hinv, hinv.1⟩
  · intro evs s hs
    have hinv := histogramSlotRun_inv evs s hs
    exact ⟨hinv, hinv.1⟩

/-- Witness for C2_amended: a rerender followed by an empty-data render on
the initial slot keeps the invariant. -/
theorem C2_amended_witness :
    SlotInv (Part000.chart3Run
        [Part000.Chart3Render.histogramRerender, Part000.Chart3Render.sampleHistogram false]
        slotInit)
    ∧ (Part000.chart3Run
        [Part000.Chart3Render.histogramRerender, Part000.Chart3Render.sampleHistogram false]
        slotInit).live.length ≤ 1 :=
  C2_amended.1
    [Part000.Chart3Render.histogramRerender, Part000.Chart3Render.sampleHistogram false]
    (by decide) slotInit (by decide)

/-- Claim C3, counterexample: in the script (11).js upload flow, a network
error (fetch rejecting with no response) skips the only clearTimeout at line
98 and the finally-handler does not clear the timer, so a pending timer
remains after the flow finishes. -/
theorem C3_counterexample :
    (Script11.processFilesTimer (UploadNet.networkError : UploadNet ℕ)).pending = true := by
  rfl

/-- Claim C3, amended: in the part_000 upload flow, the timeout is cleared
on every completion path (the finally clause always clears it); in the
script (11).js variant it is cleared, or already consumed by firing, on
every path except a network error with no response, where the timer remains
pending. -/
theorem C3_amended :
    (∀ (β : Type) (o : UploadNet β), (Part000.processFilesTimer o).pending = false)
    ∧ (∀ (β : Type) (o : UploadNet β), o ≠ UploadNet.networkError →
        (Script11.processFilesTimer o).pending = false) := by
  constructor
  · intro β o
    cases o <;> rfl
  · intro β o h
    cases o with
    | networkError => exact absurd rfl h
    | aborted => rfl
    | httpNotOk => rfl
    | jsonDecodeError => rfl
    | body b => rfl

/-- Witness for C3_amended on the aborted path. -/
theorem C3_amended_witness :
    (Script11.processFilesTimer (UploadNet.aborted : UploadNet ℕ)).pending = false :=
  C3_amended.2 ℕ UploadNet.aborted (by decide)

/-- Claim C4, counterexample: a scatter payload with both axis columns
present and a present but EMPTY point list passes the guard of
createScatterPlot (an empty array is truthy in JS), so the charting library
is called and a chart with zero points is constructed instead of the
not-enough-data placeholder the claim requires. -/
theorem C4_counterexample :
    Part000.createScatterPlot true
        (some { error := none, data := some [], x_column := some "a", y_column := some "b" })
      = Part000.ScatterRender.chart [] := by
  rfl

/-- Claim C4, amended: in the part_000 and script (11).js scatter renderer, a
payload whose data field is absent, or whose x_column or y_column is absent
or empty, yields the not-enough-data placeholder and the charting library is
not called; a present-but-empty point list is NOT caught and yields a chart
with zero points.  In app.js, displayScatterPlot shows the placeholder
whenever the point list is empty (no numeric columns can be detected), while
missing axis names merely fall back to detected numeric columns. -/
theorem C4_amended :
    (∀ (sd : Part000.ScatterData),
        sd.data = none ∨ strTruthy sd.x_column = false ∨ strTruthy sd.y_column = false →
        Part000.createScatterPlot true (some sd) = Part000.ScatterRender.notEnoughAlert)
    ∧ (∀ (cols : List String) (x y : Option String),
        AppJs.displayScatterPlot cols { error := none, data := [], x_column := x, y_column := y }
          = AppJs.ScatterDisplay.notEnoughPlaceholder) := by
  constructor
  · intro sd h
    have hcond : sd.error.isSome = true ∨ sd.data.isNone = true
        ∨ ¬strTruthy sd.x_column = true ∨ ¬strTruthy sd.y_column = true := by
      rcases h with h | h | h
      · exact Or.inr (Or.inl (by simp [h]))
      · exact Or.inr (Or.inr (Or.inl (by simp [h])))
      · exact Or.inr (Or.inr (Or.inr (by simp [h])))
    show (if sd.error.isSome = true ∨ sd.data.isNone = true
          ∨ ¬strTruthy sd.x_column = true ∨ ¬strTruthy sd.y_column = true
        then Part000.ScatterRender.notEnoughAlert
        else Part000.ScatterRender.chart
          ((sd.data.getD []).map fun r =>
            (jsNumOr0 r (sd.x_column.getD ""), jsNumOr0 r (sd.y_column.getD ""))))
      = Part000.ScatterRender.notEnoughAlert
    exact if_pos hcond
  · intro cols x y
    simp [AppJs.displayScatterPlot]

/-- Witness for C4_amended at a payload missing its x axis column. -/
theorem C4_amended_witness :
    Part000.createScatterPlot true
        (some { error := none, data := some [[("a", some 1)]],
                x_column := none, y_column := some "b" })
      = Part000.ScatterRender.notEnoughAlert :=
  C4_amended.1
    { error := none, data := some [[("a", some 1)]], x_column := none, y_column := some "b" }
    (Or.inr (Or.inl rfl))

/-- Claim C5, counterexample: an upload response with HTTP status 200 whose
body carries an explicit error field is routed by the app.js upload handler
to the generic Upload failed branch (the error message is never read), so no
ServerReported error carrying the message reaches the user. -/
theorem C5_counterexample :
    AppJs.uploadOnload 200
        { success := false, filename := "", available_columns := none, error := some "disk full" }
      = AppJs.UploadUI.uploadFailedGeneric := by
  rfl

/-- Claim C5, amended: a response body with an explicit error field yields
the error message to the user even on HTTP 200 in the part_000 upload
handler (alert), the script (11).js analyze handler (displayNoResults) and
the app.js analysis loaders (notification, whenever the success flag is not
set, which is how the backend reports errors); the app.js upload handler,
however, takes the failure branch without surfacing the message: it shows a
generic Upload failed indicator. -/
theorem C5_amended :
    (∀ (α : Type) (b : Part000.UploadBody α) (m : String), b.error = some m →
        Part000.handleUploadBody b = Part000.UploadHandled.alertError m)
    ∧ (∀ (ρ : Type) (op : Operation) (b : AnalyzeBody ρ) (m : String), b.error = some m →
        Script11.analyzeDispatch op b = Script11.AnalyzeOutcome.noResults m)
    ∧ (∀ (ρ : Type) (b : AnalyzeBody ρ) (m : String),
        b.error = some m → b.success = false →
        AppJs.loadBasicStatsDispatch b = AppJs.AnalyzeUI.errorNotification m)
    ∧ (∀ (b : AppJs.UploadBody) (m : String), b.error = some m → b.success = false →
        AppJs.uploadOnload 200 b = AppJs.UploadUI.uploadFailedGeneric) := by
  refine ⟨?_, ?_, ?_, ?_⟩
  · intro α b m h
    simp [Part000.handleUploadBody, h]
  · intro ρ op b m h
    simp [Script11.analyzeDispatch, h]
  · intro ρ b m he hs
    simp [AppJs.loadBasicStatsDispatch, hs, he]
  · intro b m he hs
    simp [AppJs.uploadOnload, hs]

/-- Witness for C5_amended on a concrete error body. -/
theorem C5_amended_witness :
    Part000.handleUploadBody { error := some "boom", analysis := (none : Option ℕ) }
      = Part000.UploadHandled.alertError "boom" :=
  C5_amended.1 ℕ { error := some "boom", analysis := none } "boom" rfl

theorem toFixed2_eq (x : ℚ) (n : ℕ) (h : jsRound2 x = (n : ℤ)) :
    toFixed2 x = String.mk (natChars (n / 100) ++ '.' :: pad2 (n % 100)) := by
  simp only [toFixed2, h, Int.toNat_natCast]

theorem toFixed2_one : toFixed2 1 = "1.00" := by
  rw [toFixed2_eq 1 100 (by norm_num [jsRound2])]
  decide

theorem toFixed2_of_12345 : toFixed2 (2469 / 200) = "12.35" := by
  rw [toFixed2_eq (2469 / 200) 1235 (by norm_num [jsRound2])]
  decide

/-- Claim C6, counterexample: the script (11).js displayOutliers joins ALL
outlier values into the description (there is no slice bound), so with six
values the sixth is rendered, contradicting the claim that the renderer
emits a sample of at most the first 5 values. -/
theorem C6_counterexample :
    (Script11.outlierItem "c"
        { count := 6, percentage := 1, outlier_values := ["v1", "v2", "v3", "v4", "v5", "v6"] }).2
      = "Found 6 outliers (1.00%): v1, v2, v3, v4, v5, v6" := by
  show "Found " ++ toString (6 : ℕ) ++ " outliers (" ++ toFixed2 (1 : ℚ) ++ "%): "
      ++ String.intercalate ", " ["v1", "v2", "v3", "v4", "v5", "v6"]
    = "Found 6 outliers (1.00%): v1, v2, v3, v4, v5, v6"
  rw [toFixed2_one]
  decide

/-- Claim C6, amended: the app.js displayOutliers emits per flagged column
the count, the two-decimal percentage and the first 5 outlier values (so the
sample is bounded by 5), and for count 3 and percentage 12.345 it outputs
exactly the string 3 outliers (12.35%); the script (11).js variant instead
joins all outlier values unbounded.  The rational 2469/200 is the decimal
12.345; the IEEE double nearest 12.345 is slightly above it and rounds to
the same two-decimal string under the toFixed rule. -/
theorem C6_amended :
    (∀ (col : String) (d : OutlierColumnData),
        (AppJs.outlierCard col d).sampleValues = d.outlier_values.take 5
        ∧ (AppJs.outlierCard col d).sampleValues.length ≤ 5)
    ∧ (∀ (col : String) (vals : List String),
        (AppJs.outlierCard col
            { count := 3, percentage := 2469 / 200, outlier_values := vals }).statValue
          = "3 outliers (12.35%)")
    ∧ (∀ (col : String) (d : OutlierColumnData),
        (Script11.outlierItem col d).2
          = "Found " ++ toString d.count ++ " outliers (" ++ toFixed2 d.percentage
              ++ "%): " ++ String.intercalate ", " d.outlier_values) := by
  refine ⟨fun col d => ⟨rfl, ?_⟩, fun col vals => ?_, fun col d => rfl⟩
  · simp [AppJs.outlierCard, List.length_take]
  · show toString (3 : ℕ) ++ " outliers (" ++ toFixed2 (2469 / 200 : ℚ) ++ "%)"
      = "3 outliers (12.35%)"
    rw [toFixed2_of_12345]
    decide

/-- Claim C7: for each upload, analyze and filter handler, every error
ending in the claim taxonomy (timeout abort, HTTP failure, server reported
error body, JSON decode failure, connection error) leaves the session state
(currentData, currentFileId, availableColumns) unchanged; it is assigned
only on the success path. -/
theorem C7_theorem :
    (∀ (α : Type) (st : Option α) (b : Part000.UploadBody α) (m : String),
        Part000.processFilesState st UploadNet.networkError = st
        ∧ Part000.processFilesState st UploadNet.aborted = st
        ∧ Part000.processFilesState st UploadNet.httpNotOk = st
        ∧ Part000.processFilesState st UploadNet.jsonDecodeError = st
        ∧ (b.error = some m → Part000.processFilesState st (UploadNet.body b) = st))
    ∧ (∀ (α : Type) (st : Option α) (b : Script11.UploadBody α) (m : String),
        Script11.processFilesState st UploadNet.networkError = st
        ∧ Script11.processFilesState st UploadNet.aborted = st
        ∧ Script11.processFilesState st UploadNet.httpNotOk = st
        ∧ Script11.processFilesState st UploadNet.jsonDecodeError = st
        ∧ (b.error = some m → Script11.processFilesState st (UploadNet.body b) = st))
    ∧ (∀ (α : Type) (st : Option α) (b : AnalyzeBody α) (m : String),
        Script11.applyFilterState st UploadNet.networkError = st
        ∧ Script11.applyFilterState st UploadNet.aborted = st
        ∧ Script11.applyFilterState st UploadNet.httpNotOk = st
        ∧ Script11.applyFilterState st UploadNet.jsonDecodeError = st
        ∧ (b.error = some m → Script11.applyFilterState st (UploadNet.body b) = st))
    ∧ (∀ (st : AppJs.Session) (status : ℕ) (b : AppJs.UploadBody),
        AppJs.uploadFileSession st AppJs.XhrOutcome.connectionError = st
        ∧ AppJs.uploadFileSession st (AppJs.XhrOutcome.loadedUnparsable status) = st
        ∧ (status ≠ 200 → AppJs.uploadFileSession st (AppJs.XhrOutcome.loaded status b) = st)
        ∧ (b.success = false → AppJs.uploadFileSession st (AppJs.XhrOutcome.loaded status b) = st)) := by
  refine ⟨?_, ?_, ?_, ?_⟩
  · intro α st b m
    refine ⟨rfl, rfl, rfl, rfl, fun h => ?_⟩
    simp [Part000.processFilesState, Part000.handleUploadBody, h]
  · intro α st b m
    refine ⟨rfl, rfl, rfl, rfl, fun h => ?_⟩
    simp [Script11.processFilesState, h]
  · intro α st b m
    refine ⟨rfl, rfl, rfl, rfl, fun h => ?_⟩
    simp [Script11.applyFilterState, h]
  · intro st status b
    refine ⟨rfl, rfl, fun h => ?_, fun h => ?_⟩
    · simp [AppJs.uploadFileSession, h]
    · simp [AppJs.uploadFileSession, h]

/-- Witness for C7_theorem on a concrete server reported error body. -/
theorem C7_theorem_witness :
    Part000.processFilesState (some 5)
        (UploadNet.body { error := some "bad file", analysis := (none : Option ℕ) })
      = some 5 :=
  (C7_theorem.1 ℕ (some 5) { error := some "bad file", analysis := none } "bad file").2.2.2.2 rfl

/-- Claim C8: the missing value percentage displayed by displayDataQuality
equals totalMissing / (columnCount * rowCount) * 100 where totalMissing is
the sum of the per column missing counts, columnCount the number of columns
in the missing-values map and rowCount the row count of the dataset. -/
theorem C8_theorem :
    ∀ (mv : List (String × ℕ)) (rc : ℕ),
      AppJs.missingPercentage mv rc = AppJs.missingPercentageSpec mv rc := by
  intro mv rc
  simp only [AppJs.missingPercentage, AppJs.missingPercentageSpec]
  rw [foldl_add_ratCast mv 0, zero_add]

/-- Claim C9: the app.js displayOutliers styles the column heading with the
warning class exactly when the percentage is strictly greater than 5 and
with the info class otherwise; the class is a function of the percentage
alone. -/
theorem C9_theorem :
    ∀ (col : String) (d : OutlierColumnData),
      ((AppJs.outlierCard col d).headingClass = "warning" ↔ d.percentage > 5)
      ∧ ((AppJs.outlierCard col d).headingClass = "info" ↔ ¬d.percentage > 5) := by
  intro col d
  by_cases h : d.percentage > 5
  · refine ⟨?_, ?_⟩ <;> simp [AppJs.outlierCard, h]
  · refine ⟨?_, ?_⟩ <;> simp [AppJs.outlierCard, h]

theorem parseFloat_strip_unit (x : ℚ) (n : ℕ) (h : jsRound2 x = (n : ℤ)) (u : String) :
    parseFloat (toFixed2 x ++ " " ++ u) = some ((n : ℚ) / 100) := by
  have hfix : toFixed2 x = String.mk (natChars (n / 100) ++ '.' :: pad2 (n % 100)) :=
    toFixed2_eq x n h
  have hdata : (toFixed2 x ++ " " ++ u).data
      = natChars (n / 100) ++ '.' :: (pad2 (n % 100) ++ ' ' :: u.data) := by
    rw [String.data_append, String.data_append, hfix]
    show (natChars (n / 100) ++ '.' :: pad2 (n % 100)) ++ [' '] ++ u.data
      = natChars (n / 100) ++ '.' :: (pad2 (n % 100) ++ ' ' :: u.data)
    simp
  obtain ⟨d, t, hdt⟩ : ∃ d t, natChars (n / 100) = d :: t := by
    cases hcc : natChars (n / 100) with
    | nil => exact absurd hcc (natChars_ne_nil _)
    | cons d t => exact ⟨d, t, rfl⟩
  have hstr : toFixed2 x ++ " " ++ u
      = String.mk ((d :: t) ++ '.' :: (pad2 (n % 100) ++ ' ' :: u.data)) := by
    apply String.ext
    rw [hdata, hdt]
  have h1 : takeDigits ((d :: t) ++ '.' :: (pad2 (n % 100) ++ ' ' :: u.data))
      = (d :: t, '.' :: (pad2 (n % 100) ++ ' ' :: u.data)) :=
    takeDigits_append (d :: t) (by rw [← hdt]; exact natChars_digits _) '.' (by decide) _
  have h2 : takeDigits (pad2 (n % 100) ++ ' ' :: u.data)
      = (pad2 (n % 100), ' ' :: u.data) :=
    takeDigits_append _ (pad2_digits _) ' ' (by decide) _
  rw [hstr, parseFloat_shape d t _ _ h1 h2, ← hdt, digitsToNat_natChars,
      digitsToNat_pad2 _ (Nat.mod_lt n (by omega))]
  have hlen : (pad2 (n % 100)).length = 2 := rfl
  rw [hlen]
  have hna : 100 * (n / 100) + n % 100 = n := Nat.div_add_mod n 100
  have hsum : ((n / 100 : ℕ) : ℚ) + ((n % 100 : ℕ) : ℚ) / 10 ^ 2
      = ((100 * (n / 100) + n % 100 : ℕ) : ℚ) / 100 := by
    push_cast
    ring
  rw [hsum, hna]

/-- Claim C10: formatFileSize returns the string 0 Bytes for input 0; for
every positive input, parseFloat is applied to the concatenation of the
two-decimal value and the unit label, so the returned result is the bare
two-decimal number (rounded hundredths of bytes / 1024 ^ floor(log1024
bytes)) with the unit suffix stripped. -/
theorem C10_theorem :
    AppJs.formatFileSize 0 = AppJs.JSValue.str "0 Bytes"
    ∧ ∀ (bytes : ℕ), 0 < bytes →
        AppJs.formatFileSize bytes
          = AppJs.JSValue.num
              (((jsRound2 ((bytes : ℚ) / 1024 ^ Nat.log 1024 bytes)).toNat : ℚ) / 100) := by
  constructor
  · rfl
  · intro bytes hb
    have hbne : ¬bytes = 0 := by omega
    have hv : (0 : ℚ) ≤ (bytes : ℚ) / 1024 ^ Nat.log 1024 bytes := by positivity
    have hnn : 0 ≤ jsRound2 ((bytes : ℚ) / 1024 ^ Nat.log 1024 bytes) := by
      unfold jsRound2
      apply Int.floor_nonneg.mpr
      linarith
    have hcast : jsRound2 ((bytes : ℚ) / 1024 ^ Nat.log 1024 bytes)
        = (((jsRound2 ((bytes : ℚ) / 1024 ^ Nat.log 1024 bytes)).toNat : ℕ) : ℤ) :=
      (Int.toNat_of_nonneg hnn).symm
    have hp := parseFloat_strip_unit ((bytes : ℚ) / 1024 ^ Nat.log 1024 bytes)
      ((jsRound2 ((bytes : ℚ) / 1024 ^ Nat.log 1024 bytes)).toNat) hcast
      (AppJs.sizes.getD (Nat.log 1024 bytes) "undefined")
    unfold AppJs.formatFileSize
    rw [if_neg hbne]
    simp only [hp]

/-- Witness for C10_theorem at 1536 bytes (1.50 KB, returned as the bare
number). -/
theorem C10_theorem_witness :
    AppJs.formatFileSize 1536
      = AppJs.JSValue.num
          (((jsRound2 ((1536 : ℚ) / 1024 ^ Nat.log 1024 1536)).toNat : ℚ) / 100) :=
  C10_theorem.2 1536 (by norm_num)
